import Mathlib

/-!
Verification of the autoPen scan-orchestration core.

Shallow embedding of `app/services/scanner.py`, `app/services/tools.py`,
`app/schemas/scan.py` and `app/api/api_v1/endpoints/scan.py`.  Network
effects (TCP connects, DNS, HTTP fetches) are passed in as explicit
function parameters; Python dicts become association lists or explicit
function-typed tables; a raised exception becomes `Except.error` carrying
the exception's message string.  `list(set(...))` is modelled by
`List.dedup` — Python's set iteration order is arbitrary, so only
membership and cardinality of such lists are meaningful.
-/

/-! ## Job status table (`ScanOrchestrator._update_scan_status` / `get_scan_status`) -/

/-- A value stored in a job-status record: the Python dict holds strings
(status, phase, message, timestamp) and one integer (progress). -/
inductive StatusValue where
  | str : String → StatusValue
  | nat : Nat → StatusValue
deriving DecidableEq, Repr

/-- A job-status record, modelling the Python dict written by
`ScanOrchestrator._update_scan_status` (or the sentinel returned by
`get_scan_status`): an association list from field name to value, in the
dict's insertion order. -/
abbrev StatusRecord := List (String × StatusValue)

/-- The record built by `_update_scan_status`: five fields in the literal's
order, `updated_at` holding the caller-supplied clock reading
(`datetime.utcnow().isoformat()`). -/
def ScanOrchestrator.mk_status_record (status : String) (progress : Nat)
    (phase message now : String) : StatusRecord :=
  [("status", StatusValue.str status),
   ("progress", StatusValue.nat progress),
   ("current_phase", StatusValue.str phase),
   ("message", StatusValue.str message),
   ("updated_at", StatusValue.str now)]

/-- `ScanOrchestrator._update_scan_status`: `self.scan_status[scan_id] = {...}`.
The status table is a function from scan id to an optional record. -/
def ScanOrchestrator.update_scan_status (tbl : Nat → Option StatusRecord)
    (scan_id : Nat) (status : String) (progress : Nat)
    (phase message now : String) : Nat → Option StatusRecord :=
  fun k =>
    if k = scan_id then some (ScanOrchestrator.mk_status_record status progress phase message now)
    else tbl k

/-- The sentinel record `get_scan_status` falls back to: four fields,
no `updated_at`. -/
def ScanOrchestrator.unknown_record : StatusRecord :=
  [("status", StatusValue.str "unknown"),
   ("progress", StatusValue.nat 0),
   ("current_phase", StatusValue.str "unknown"),
   ("message", StatusValue.str "Scan status not found")]

/-- `ScanOrchestrator.get_scan_status`: `self.scan_status.get(scan_id, {...})`. -/
def ScanOrchestrator.get_scan_status (tbl : Nat → Option StatusRecord)
    (scan_id : Nat) : StatusRecord :=
  (tbl scan_id).getD ScanOrchestrator.unknown_record

/-! ## Port scanner (`tools.PortScanner`) -/

/-- One element of a target's `open_ports` list, as appended by
`PortScanner._scan_target_ports`. -/
structure PortFinding where
  port : Nat
  service : String
  state : String
deriving DecidableEq, Repr

/-- The dict returned by `PortScanner._scan_target_ports`: keys `target`,
`open_ports`, `scan_time` (the source stores the literal `'now'`). -/
structure TargetPortResult where
  target : String
  open_ports : List PortFinding
  scan_time : String
deriving DecidableEq, Repr

/-- The keys of the dict `_scan_target_ports` returns.  The literal always
carries these three keys, whatever `open_ports` holds. -/
def TargetPortResult.dict_keys (_ : TargetPortResult) : List String :=
  ["target", "open_ports", "scan_time"]

/-- Python truthiness of the `_scan_target_ports` dict, as tested by
`if target_results:` in `scan_ports`: a dict is truthy iff it is non-empty,
i.e. iff its key list is non-empty. -/
def TargetPortResult.truthy (r : TargetPortResult) : Bool :=
  !(r.dict_keys.isEmpty)

/-- The `services` dict of `PortScanner._identify_service`. -/
def PortScanner.services : List (Nat × String) :=
  [(21, "ftp"), (22, "ssh"), (23, "telnet"), (25, "smtp"),
   (53, "dns"), (80, "http"), (110, "pop3"), (143, "imap"),
   (443, "https"), (993, "imaps"), (995, "pop3s"),
   (3306, "mysql"), (5432, "postgresql"), (6379, "redis"),
   (27017, "mongodb")]

/-- `PortScanner._identify_service`: `services.get(port, 'unknown')`. -/
def PortScanner.identify_service (port : Nat) : String :=
  ((PortScanner.services.lookup port).getD "unknown")

/-- The `common_ports` list of `PortScanner.scan_ports`. -/
def PortScanner.common_ports : List Nat :=
  [21, 22, 23, 25, 53, 80, 110, 143, 443, 993, 995, 3306, 5432, 6379, 27017]

/-- `PortScanner._scan_target_ports`.  `connect_ok target port` models
`sock.connect_ex((target, port)) == 0` with no exception; a refused,
timed-out or errored connect gives `false` (the source appends no finding
in either case). -/
def PortScanner.scan_target_ports (connect_ok : String → Nat → Bool)
    (target : String) (ports : List Nat) : TargetPortResult :=
  { target := target
    open_ports := ports.foldl (fun acc port =>
      if connect_ok target port then
        acc ++ [{ port := port
                  service := PortScanner.identify_service port
                  state := "open" }]
      else acc) []
    scan_time := "now" }

/-- `PortScanner.scan_ports`: builds the result dict in target order,
inserting a target's entry only when the dict `_scan_target_ports`
returned is truthy. -/
def PortScanner.scan_ports (connect_ok : String → Nat → Bool)
    (targets : List String) : List (String × TargetPortResult) :=
  targets.foldl (fun results target =>
    let target_results := PortScanner.scan_target_ports connect_ok target PortScanner.common_ports
    if target_results.truthy then results ++ [(target, target_results)]
    else results) []

/-! ## Vulnerability scanner (`tools.VulnerabilityScanner`) -/

/-- One vulnerability finding dict, as appended by
`VulnerabilityScanner._scan_web_vulnerabilities`. -/
structure Vuln where
  target : String
  port : Nat
  vulnerability_type : String
  severity : String
  description : String
  tool : String
deriving DecidableEq, Repr

/-- The `security_headers` dict of `_scan_web_vulnerabilities`, in
insertion order: header name paired with its fixed description. -/
def VulnerabilityScanner.security_headers : List (String × String) :=
  [("X-Frame-Options", "Clickjacking protection missing"),
   ("X-Content-Type-Options", "MIME type sniffing protection missing"),
   ("X-XSS-Protection", "XSS protection missing"),
   ("Strict-Transport-Security", "HSTS missing"),
   ("Content-Security-Policy", "CSP missing")]

/-- `VulnerabilityScanner._scan_web_vulnerabilities`.  `fetch target port`
models the single GET: `none` when the request raises (the source then
returns the empty list), `some headers` a successful response, where
`headers h` tells whether header `h` is present.  On success one finding
is appended per absent header, in `security_headers` order. -/
def VulnerabilityScanner.scan_web_vulnerabilities
    (fetch : String → Nat → Option (String → Bool))
    (target : String) (port : Nat) : List Vuln :=
  match fetch target port with
  | none => []
  | some headers =>
    VulnerabilityScanner.security_headers.foldl (fun vulns hd =>
      if headers hd.1 then vulns
      else vulns ++ [{ target := target
                       port := port
                       vulnerability_type := "Missing Security Header"
                       severity := "Medium"
                       description := hd.2
                       tool := "HeaderScanner" }]) []

/-- `VulnerabilityScanner._scan_target_vulnerabilities`: audits each open
port whose identified service is http or https, skipping the rest. -/
def VulnerabilityScanner.scan_target_vulnerabilities
    (fetch : String → Nat → Option (String → Bool))
    (target : String) (port_info : TargetPortResult) : List Vuln :=
  port_info.open_ports.foldl (fun vulns pd =>
    if pd.service == "http" || pd.service == "https" then
      vulns ++ VulnerabilityScanner.scan_web_vulnerabilities fetch target pd.port
    else vulns) []

/-- `VulnerabilityScanner.scan_vulnerabilities`: extends the flat list with
each target's findings, in the result map's key order. -/
def VulnerabilityScanner.scan_vulnerabilities
    (fetch : String → Nat → Option (String → Bool))
    (targets : List (String × TargetPortResult)) : List Vuln :=
  targets.foldl (fun vulns t =>
    vulns ++ VulnerabilityScanner.scan_target_vulnerabilities fetch t.1 t.2) []

/-! ## Subdomain enumerator (`tools.SubdomainEnumerator`) -/

/-- The body of the `for method in methods` loop of
`SubdomainEnumerator.enumerate_subdomains`: a failed method
(`Except.error`) is caught, logged and skipped; a successful one has its
results added to the accumulating set (modelled as a list with duplicates,
deduplicated when the set is materialised). -/
def SubdomainEnumerator.collect_step (acc : List String)
    (r : Except String (List String)) : List String :=
  match r with
  | Except.ok results => acc ++ results
  | Except.error _ => acc

/-- `SubdomainEnumerator.enumerate_subdomains`.  `method_results` holds the
outcome of each discovery method in the `methods` list order
(`_crtsh_lookup`, `_dns_bruteforce`, `_certificate_transparency`).
`return list(subdomains)` on the Python set is modelled by `List.dedup`
on the concatenation of the successful methods' results. -/
def SubdomainEnumerator.enumerate_subdomains
    (method_results : List (Except String (List String))) : List String :=
  (method_results.foldl SubdomainEnumerator.collect_step []).dedup

/-! ## Scan orchestrator runs (`scanner.ScanOrchestrator`) -/

/-- One `_update_scan_status` call issued during a run, in issue order. -/
structure StatusWrite where
  scan_id : Nat
  status : String
  progress : Nat
  phase : String
  message : String
deriving DecidableEq, Repr

/-- Outcomes of the awaited tool calls a run makes.  Each call may also
raise an exception that escapes the tool (`Except.error` with the
exception's message), which the orchestrator's `except` block catches. -/
structure ScanEnv where
  enumerate_subdomains : String → Except String (List String)
  scan_ports : List String → Except String (List (String × TargetPortResult))
  scan_vulnerabilities : List (String × TargetPortResult) → Except String (List Vuln)
  completed_at : String

/-- The `summary` dict of a full-scan result. -/
structure ScanSummary where
  total_subdomains : Nat
  total_targets : Nat
  targets_with_open_ports : Nat
  total_vulnerabilities : Nat
deriving DecidableEq, Repr

/-- The `results` dict returned by `run_full_scan`. -/
structure FullScanResult where
  target_domain : String
  scan_completed_at : String
  summary : ScanSummary
  subdomains : List String
  port_scan_results : List (String × TargetPortResult)
  vulnerabilities : List Vuln
deriving DecidableEq, Repr

/-- The `results` dict returned by `run_subdomain_scan`. -/
structure SubdomainScanResult where
  target_domain : String
  scan_completed_at : String
  subdomains : List String
  total_found : Nat
deriving DecidableEq, Repr

/-- The status write the `except` block of every run method issues:
status failed, progress 0, phase "error". -/
def ScanOrchestrator.fail_write (scan_id : Nat) (message : String) : StatusWrite :=
  { scan_id := scan_id, status := "failed", progress := 0
    phase := "error", message := message }

/-- `ScanOrchestrator.run_full_scan`: returns the `_update_scan_status`
calls issued, in order, and either the results dict or the re-raised
exception.  On an exception escaping a phase the `except` block writes the
fail record with message `"Scan failed: " ++ e` and re-raises `e`
unchanged (bare `raise`). -/
def ScanOrchestrator.run_full_scan (env : ScanEnv) (scan_id : Nat)
    (target_domain : String) : List StatusWrite × Except String FullScanResult :=
  let w0 : StatusWrite := ⟨scan_id, "running", 0, "Starting scan", "Initializing..."⟩
  let w1 : StatusWrite := ⟨scan_id, "running", 10, "subdomain_enum", "Enumerating subdomains..."⟩
  match env.enumerate_subdomains target_domain with
  | Except.error e =>
    ([w0, w1, ScanOrchestrator.fail_write scan_id ("Scan failed: " ++ e)], Except.error e)
  | Except.ok subdomains =>
    let all_targets := (target_domain :: subdomains).dedup
    let w2 : StatusWrite := ⟨scan_id, "running", 30, "subdomain_enum",
      "Found " ++ toString all_targets.length ++ " targets"⟩
    let w3 : StatusWrite := ⟨scan_id, "running", 40, "port_scan", "Scanning ports..."⟩
    match env.scan_ports all_targets with
    | Except.error e =>
      ([w0, w1, w2, w3, ScanOrchestrator.fail_write scan_id ("Scan failed: " ++ e)],
       Except.error e)
    | Except.ok port_results =>
      let w4 : StatusWrite := ⟨scan_id, "running", 70, "port_scan",
        "Scanned " ++ toString port_results.length ++ " targets"⟩
      let w5 : StatusWrite := ⟨scan_id, "running", 80, "vuln_scan", "Scanning vulnerabilities..."⟩
      match env.scan_vulnerabilities port_results with
      | Except.error e =>
        ([w0, w1, w2, w3, w4, w5, ScanOrchestrator.fail_write scan_id ("Scan failed: " ++ e)],
         Except.error e)
      | Except.ok vulnerabilities =>
        let w6 : StatusWrite := ⟨scan_id, "running", 95, "vuln_scan",
          "Found " ++ toString vulnerabilities.length ++ " potential issues"⟩
        let results : FullScanResult :=
          { target_domain := target_domain
            scan_completed_at := env.completed_at
            summary :=
              { total_subdomains := subdomains.length
                total_targets := all_targets.length
                targets_with_open_ports := port_results.length
                total_vulnerabilities := vulnerabilities.length }
            subdomains := subdomains
            port_scan_results := port_results
            vulnerabilities := vulnerabilities }
        let w7 : StatusWrite := ⟨scan_id, "completed", 100, "completed",
          "Scan completed successfully"⟩
        ([w0, w1, w2, w3, w4, w5, w6, w7], Except.ok results)

/-- `ScanOrchestrator.run_subdomain_scan`, same conventions as
`run_full_scan`; the fail message is `"Subdomain scan failed: " ++ e`. -/
def ScanOrchestrator.run_subdomain_scan (env : ScanEnv) (scan_id : Nat)
    (target_domain : String) : List StatusWrite × Except String SubdomainScanResult :=
  let w0 : StatusWrite := ⟨scan_id, "running", 0, "subdomain_enum",
    "Starting subdomain enumeration..."⟩
  match env.enumerate_subdomains target_domain with
  | Except.error e =>
    ([w0, ScanOrchestrator.fail_write scan_id ("Subdomain scan failed: " ++ e)], Except.error e)
  | Except.ok subdomains =>
    let results : SubdomainScanResult :=
      { target_domain := target_domain
        scan_completed_at := env.completed_at
        subdomains := subdomains
        total_found := subdomains.length }
    ([w0, ⟨scan_id, "completed", 100, "completed",
      "Found " ++ toString subdomains.length ++ " subdomains"⟩], Except.ok results)

/-- The `results` dict returned by `run_port_scan`. -/
structure PortScanResult where
  target_domain : String
  scan_completed_at : String
  port_scan_results : List (String × TargetPortResult)
deriving DecidableEq, Repr

/-- The `results` dict returned by `run_vulnerability_scan`. -/
structure VulnScanResult where
  target_domain : String
  scan_completed_at : String
  vulnerabilities : List Vuln
  total_vulnerabilities : Nat
deriving DecidableEq, Repr

/-- `ScanOrchestrator.run_port_scan`, same conventions as `run_full_scan`:
one port-scan phase over the root domain only; the fail message is
`"Port scan failed: " ++ e`. -/
def ScanOrchestrator.run_port_scan (env : ScanEnv) (scan_id : Nat)
    (target_domain : String) : List StatusWrite × Except String PortScanResult :=
  let w0 : StatusWrite := ⟨scan_id, "running", 0, "port_scan", "Starting port scan..."⟩
  match env.scan_ports [target_domain] with
  | Except.error e =>
    ([w0, ScanOrchestrator.fail_write scan_id ("Port scan failed: " ++ e)], Except.error e)
  | Except.ok port_results =>
    let results : PortScanResult :=
      { target_domain := target_domain
        scan_completed_at := env.completed_at
        port_scan_results := port_results }
    ([w0, ⟨scan_id, "completed", 100, "completed", "Port scan completed"⟩], Except.ok results)

/-- `ScanOrchestrator.run_vulnerability_scan`, same conventions as
`run_full_scan`: a quick port scan of the root domain, then the
vulnerability scan over its result; the fail message is
`"Vulnerability scan failed: " ++ e` whichever awaited call raises. -/
def ScanOrchestrator.run_vulnerability_scan (env : ScanEnv) (scan_id : Nat)
    (target_domain : String) : List StatusWrite × Except String VulnScanResult :=
  let w0 : StatusWrite := ⟨scan_id, "running", 0, "vuln_scan", "Starting vulnerability scan..."⟩
  match env.scan_ports [target_domain] with
  | Except.error e =>
    ([w0, ScanOrchestrator.fail_write scan_id ("Vulnerability scan failed: " ++ e)],
     Except.error e)
  | Except.ok port_results =>
    match env.scan_vulnerabilities port_results with
    | Except.error e =>
      ([w0, ScanOrchestrator.fail_write scan_id ("Vulnerability scan failed: " ++ e)],
       Except.error e)
    | Except.ok vulnerabilities =>
      let results : VulnScanResult :=
        { target_domain := target_domain
          scan_completed_at := env.completed_at
          vulnerabilities := vulnerabilities
          total_vulnerabilities := vulnerabilities.length }
      ([w0, ⟨scan_id, "completed", 100, "completed",
        "Found " ++ toString vulnerabilities.length ++ " vulnerabilities"⟩], Except.ok results)

/-! ## Scan-type validation and dispatch (`schemas/scan.py`, `endpoints/scan.py`) -/

/-- The `allowed_types` list of `ScanCreate.validate_scan_type`. -/
def allowed_scan_types : List String := ["full", "subdomain", "port", "vuln"]

/-- `ScanCreate.validate_scan_type`: raises
`ValueError(f'Scan type must be one of: {allowed_types}')` when the value
is not allowed, else returns it. -/
def ScanCreate.validate_scan_type (v : String) : Except String String :=
  if v ∈ allowed_scan_types then Except.ok v
  else Except.error
    "Scan type must be one of: [\x27full\x27, \x27subdomain\x27, \x27port\x27, \x27vuln\x27]"

/-- The orchestrator run method `run_scan_background` selects. -/
inductive ScanAction where
  | run_full_scan
  | run_subdomain_scan
  | run_port_scan
  | run_vulnerability_scan
deriving DecidableEq, Repr

/-- The `if scan_request.scan_type == ...` chain of `run_scan_background`:
the `else` branch raises `ValueError(f"Unknown scan type: {scan_type}")`
before any run method — and hence any scan phase — executes. -/
def select_scan (scan_type : String) : Except String ScanAction :=
  if scan_type = "full" then Except.ok ScanAction.run_full_scan
  else if scan_type = "subdomain" then Except.ok ScanAction.run_subdomain_scan
  else if scan_type = "port" then Except.ok ScanAction.run_port_scan
  else if scan_type = "vuln" then Except.ok ScanAction.run_vulnerability_scan
  else Except.error ("Unknown scan type: " ++ scan_type)

/-! ## Concrete environments used by the scenario theorems -/

/-- The spec's full-scan scenario network: only `www.example.com:80`
accepts a TCP connect. -/
def openScenario : String → Nat → Bool :=
  fun t p => t == "www.example.com" && p == 80

/-- The scenario's HTTP layer: only `www.example.com:80` answers, with
three of the five checked headers present (so exactly the two findings
HSTS missing and CSP missing arise). -/
def scenarioFetch : String → Nat → Option (String → Bool) :=
  fun t p =>
    if t == "www.example.com" && p == 80 then
      some (fun h =>
        h == "X-Frame-Options" || h == "X-Content-Type-Options" || h == "X-XSS-Protection")
    else none

/-- The spec's full-scan scenario environment: discovery returns
`www.example.com`, the port and vulnerability phases run the embedded
tools over `openScenario` and `scenarioFetch` without raising. -/
def envScenario : ScanEnv :=
  { enumerate_subdomains := fun _ => Except.ok ["www.example.com"]
    scan_ports := fun targets => Except.ok (PortScanner.scan_ports openScenario targets)
    scan_vulnerabilities := fun port_results =>
      Except.ok (VulnerabilityScanner.scan_vulnerabilities scenarioFetch port_results)
    completed_at := "t0" }

/-- An environment whose port-scan phase raises an exception with message
"boom" after subdomain discovery succeeded. -/
def envPortFail : ScanEnv :=
  { enumerate_subdomains := fun _ => Except.ok ["www.example.com"]
    scan_ports := fun _ => Except.error "boom"
    scan_vulnerabilities := fun _ => Except.ok []
    completed_at := "t0" }

/-- A network where exactly ports 80, 22 and 9999 accept a connect, on
every host. -/
def openC4 : String → Nat → Bool :=
  fun _ p => p == 80 || p == 22 || p == 9999

/-- An HTTP layer where every request succeeds with only
`Content-Security-Policy` present among the checked headers. -/
def cspFetch : String → Nat → Option (String → Bool) :=
  fun _ _ => some (fun h => h == "Content-Security-Policy")

/-! ## Theorems -/

/-- C5: for a job id with no recorded status, `get_scan_status` returns the
sentinel record, whose `status` field is "unknown" and whose `progress`
field is 0; the function is total, so it never fails. -/
theorem get_scan_status_sentinel (tbl : Nat → Option StatusRecord) (scan_id : Nat)
    (h : tbl scan_id = none) :
    ScanOrchestrator.get_scan_status tbl scan_id = ScanOrchestrator.unknown_record ∧
    (ScanOrchestrator.get_scan_status tbl scan_id).lookup "status"
      = some (StatusValue.str "unknown") ∧
    (ScanOrchestrator.get_scan_status tbl scan_id).lookup "progress"
      = some (StatusValue.nat 0) := by
  refine ⟨?_, ?_, ?_⟩ <;>
    simp [ScanOrchestrator.get_scan_status, h, ScanOrchestrator.unknown_record, List.lookup]

theorem get_scan_status_sentinel_witness :
    ScanOrchestrator.get_scan_status (fun _ => none) 7 = ScanOrchestrator.unknown_record :=
  (get_scan_status_sentinel (fun _ => none) 7 rfl).1

/-- C9: a status update for job id `scan_id` changes only the table entry
keyed by `scan_id`; every other job id's record is unchanged. -/
theorem update_scan_status_frame (tbl : Nat → Option StatusRecord)
    (scan_id k : Nat) (status : String) (progress : Nat)
    (phase message now : String) (h : k ≠ scan_id) :
    ScanOrchestrator.update_scan_status tbl scan_id status progress phase message now k
      = tbl k := by
  simp [ScanOrchestrator.update_scan_status, h]

theorem update_scan_status_frame_witness :
    ScanOrchestrator.update_scan_status (fun _ => none) 1 "running" 10 "port_scan" "m" "t0" 2
      = none :=
  update_scan_status_frame (fun _ => none) 1 2 "running" 10 "port_scan" "m" "t0" (by decide)

/-- C10: the sentinel record carries exactly the fields status, progress,
current_phase and message (no `updated_at`), while every record written by a
status update carries exactly those four plus `updated_at`. -/
theorem sentinel_vs_written_fields (tbl : Nat → Option StatusRecord) (scan_id : Nat)
    (h : tbl scan_id = none) :
    (ScanOrchestrator.get_scan_status tbl scan_id).map Prod.fst
      = ["status", "progress", "current_phase", "message"] ∧
    (∀ (tbl2 : Nat → Option StatusRecord) (id2 : Nat) (status : String) (progress : Nat)
        (phase message now : String),
      ScanOrchestrator.update_scan_status tbl2 id2 status progress phase message now id2
        = some (ScanOrchestrator.mk_status_record status progress phase message now) ∧
      (ScanOrchestrator.mk_status_record status progress phase message now).map Prod.fst
        = ["status", "progress", "current_phase", "message", "updated_at"]) := by
  refine ⟨?_, fun tbl2 id2 status progress phase message now => ⟨?_, ?_⟩⟩
  · simp [ScanOrchestrator.get_scan_status, h, ScanOrchestrator.unknown_record]
  · simp [ScanOrchestrator.update_scan_status]
  · simp [ScanOrchestrator.mk_status_record]

theorem sentinel_vs_written_fields_witness :
    (ScanOrchestrator.get_scan_status (fun _ => none) 3).map Prod.fst
      = ["status", "progress", "current_phase", "message"] :=
  (sentinel_vs_written_fields (fun _ => none) 3 rfl).1

/-- C1 (code evaluation): in the spec's full-scan scenario (discovery
returns www.example.com, only www.example.com:80 open) the result map of
`scan_ports` still contains example.com, with an empty `open_ports` list —
the dict returned by `_scan_target_ports` always carries three keys, so
the `if target_results:` filter never drops a target — and the full-scan
summary reports targets_with_open_ports = 2, not 1. -/
theorem scan_ports_keeps_empty_targets :
    ((PortScanner.scan_ports openScenario ["example.com", "www.example.com"]).map Prod.fst
        = ["example.com", "www.example.com"]) ∧
    ((PortScanner.scan_ports openScenario ["example.com", "www.example.com"]).head?.map
        (fun pr => pr.2.open_ports) = some []) ∧
    ((ScanOrchestrator.run_full_scan envScenario 1 "example.com").2.map
        (fun r => r.summary)
      = Except.ok { total_subdomains := 1, total_targets := 2,
                    targets_with_open_ports := 2, total_vulnerabilities := 2 }) :=
  ⟨rfl, rfl, rfl⟩

/-- C2 (counterexample): a full scan whose port phase raises after progress
40 was written ends with a write of progress 0, so the progress sequence
[0, 10, 30, 40, 0] of that run is not monotonically non-decreasing. -/
theorem progress_regresses_on_failure :
    ((ScanOrchestrator.run_full_scan envPortFail 1 "example.com").1.map
        (fun w => w.progress) = [0, 10, 30, 40, 0]) ∧
    ¬ List.Chain' (fun a b => a ≤ b)
        ((ScanOrchestrator.run_full_scan envPortFail 1 "example.com").1.map
          (fun w => w.progress)) := by
  refine ⟨rfl, ?_⟩
  intro hch
  rw [show (ScanOrchestrator.run_full_scan envPortFail 1 "example.com").1.map
      (fun w => w.progress) = [0, 10, 30, 40, 0] from rfl] at hch
  simp [List.chain'_cons] at hch

/-- C2 (amended): on every scan run (any of the four scan types) the final
progress write is exactly 100 on success (full: 0, 10, 30, 40, 70, 80, 95,
100; subdomain, port and vuln: 0, 100) and on error the final write has
status "failed" and progress 0, strictly below 100; the write sequence is
monotonically non-decreasing on every successful run and on every failing
subdomain, port and vuln run (whose sequence is 0, 0), but a failing full
scan regresses — its error write of 0 follows writes of 10 or more — so
monotonicity within the run does not hold for failing full scans. -/
theorem progress_trace_amended (env : ScanEnv) (scan_id : Nat) (dom : String) :
    ((∃ r, (ScanOrchestrator.run_full_scan env scan_id dom).2 = Except.ok r) →
      (ScanOrchestrator.run_full_scan env scan_id dom).1.map (fun w => w.progress)
          = [0, 10, 30, 40, 70, 80, 95, 100] ∧
      List.Chain' (fun a b => a ≤ b)
        ((ScanOrchestrator.run_full_scan env scan_id dom).1.map (fun w => w.progress))) ∧
    (∀ e, (ScanOrchestrator.run_full_scan env scan_id dom).2 = Except.error e →
      ∃ w, (ScanOrchestrator.run_full_scan env scan_id dom).1.getLast? = some w ∧
        w.status = "failed" ∧ w.progress = 0 ∧ w.progress < 100) ∧
    ((∃ r, (ScanOrchestrator.run_subdomain_scan env scan_id dom).2 = Except.ok r) →
      (ScanOrchestrator.run_subdomain_scan env scan_id dom).1.map (fun w => w.progress)
          = [0, 100]) ∧
    (∀ e, (ScanOrchestrator.run_subdomain_scan env scan_id dom).2 = Except.error e →
      (ScanOrchestrator.run_subdomain_scan env scan_id dom).1.map (fun w => w.progress)
          = [0, 0] ∧
      List.Chain' (fun a b => a ≤ b)
        ((ScanOrchestrator.run_subdomain_scan env scan_id dom).1.map (fun w => w.progress)) ∧
      ∃ w, (ScanOrchestrator.run_subdomain_scan env scan_id dom).1.getLast? = some w ∧
        w.status = "failed" ∧ w.progress = 0 ∧ w.progress < 100) ∧
    ((∃ r, (ScanOrchestrator.run_port_scan env scan_id dom).2 = Except.ok r) →
      (ScanOrchestrator.run_port_scan env scan_id dom).1.map (fun w => w.progress)
          = [0, 100]) ∧
    (∀ e, (ScanOrchestrator.run_port_scan env scan_id dom).2 = Except.error e →
      (ScanOrchestrator.run_port_scan env scan_id dom).1.map (fun w => w.progress)
          = [0, 0] ∧
      List.Chain' (fun a b => a ≤ b)
        ((ScanOrchestrator.run_port_scan env scan_id dom).1.map (fun w => w.progress)) ∧
      ∃ w, (ScanOrchestrator.run_port_scan env scan_id dom).1.getLast? = some w ∧
        w.status = "failed" ∧ w.progress = 0 ∧ w.progress < 100) ∧
    ((∃ r, (ScanOrchestrator.run_vulnerability_scan env scan_id dom).2 = Except.ok r) →
      (ScanOrchestrator.run_vulnerability_scan env scan_id dom).1.map (fun w => w.progress)
          = [0, 100]) ∧
    (∀ e, (ScanOrchestrator.run_vulnerability_scan env scan_id dom).2 = Except.error e →
      (ScanOrchestrator.run_vulnerability_scan env scan_id dom).1.map (fun w => w.progress)
          = [0, 0] ∧
      List.Chain' (fun a b => a ≤ b)
        ((ScanOrchestrator.run_vulnerability_scan env scan_id dom).1.map (fun w => w.progress)) ∧
      ∃ w, (ScanOrchestrator.run_vulnerability_scan env scan_id dom).1.getLast? = some w ∧
        w.status = "failed" ∧ w.progress = 0 ∧ w.progress < 100) := by
  refine ⟨?_, ?_, ?_, ?_, ?_, ?_, ?_, ?_⟩
  · rintro ⟨r, hr⟩
    rcases henum : env.enumerate_subdomains dom with e0 | subs
    · simp [ScanOrchestrator.run_full_scan, henum] at hr
    · rcases hport : env.scan_ports ((dom :: subs).dedup) with e1 | prs
      · simp [ScanOrchestrator.run_full_scan, henum, hport] at hr
      · rcases hvuln : env.scan_vulnerabilities prs with e2 | vulns
        · simp [ScanOrchestrator.run_full_scan, henum, hport, hvuln] at hr
        · simp [ScanOrchestrator.run_full_scan, henum, hport, hvuln, List.chain'_cons]
  · intro e he
    rcases henum : env.enumerate_subdomains dom with e0 | subs
    · refine ⟨ScanOrchestrator.fail_write scan_id ("Scan failed: " ++ e0), ?_, rfl, rfl,
        by simp [ScanOrchestrator.fail_write]⟩
      simp [ScanOrchestrator.run_full_scan, henum]
    · rcases hport : env.scan_ports ((dom :: subs).dedup) with e1 | prs
      · refine ⟨ScanOrchestrator.fail_write scan_id ("Scan failed: " ++ e1),
          ?_, rfl, rfl, by simp [ScanOrchestrator.fail_write]⟩
        simp [ScanOrchestrator.run_full_scan, henum, hport]
      · rcases hvuln : env.scan_vulnerabilities prs with e2 | vulns
        · refine ⟨ScanOrchestrator.fail_write scan_id ("Scan failed: " ++ e2),
            ?_, rfl, rfl, by simp [ScanOrchestrator.fail_write]⟩
          simp [ScanOrchestrator.run_full_scan, henum, hport, hvuln]
        · simp [ScanOrchestrator.run_full_scan, henum, hport, hvuln] at he
  · rintro ⟨r, hr⟩
    rcases henum : env.enumerate_subdomains dom with e0 | subs
    · simp [ScanOrchestrator.run_subdomain_scan, henum] at hr
    · simp [ScanOrchestrator.run_subdomain_scan, henum]
  · intro e he
    rcases henum : env.enumerate_subdomains dom with e0 | subs
    · refine ⟨by simp [ScanOrchestrator.run_subdomain_scan, henum, ScanOrchestrator.fail_write],
        by simp [ScanOrchestrator.run_subdomain_scan, henum, ScanOrchestrator.fail_write,
          List.chain'_cons],
        ScanOrchestrator.fail_write scan_id ("Subdomain scan failed: " ++ e0),
        by simp [ScanOrchestrator.run_subdomain_scan, henum], rfl, rfl,
        by simp [ScanOrchestrator.fail_write]⟩
    · simp [ScanOrchestrator.run_subdomain_scan, henum] at he
  · rintro ⟨r, hr⟩
    rcases hport : env.scan_ports [dom] with e1 | prs
    · simp [ScanOrchestrator.run_port_scan, hport] at hr
    · simp [ScanOrchestrator.run_port_scan, hport]
  · intro e he
    rcases hport : env.scan_ports [dom] with e1 | prs
    · refine ⟨by simp [ScanOrchestrator.run_port_scan, hport, ScanOrchestrator.fail_write],
        by simp [ScanOrchestrator.run_port_scan, hport, ScanOrchestrator.fail_write,
          List.chain'_cons],
        ScanOrchestrator.fail_write scan_id ("Port scan failed: " ++ e1),
        by simp [ScanOrchestrator.run_port_scan, hport], rfl, rfl,
        by simp [ScanOrchestrator.fail_write]⟩
    · simp [ScanOrchestrator.run_port_scan, hport] at he
  · rintro ⟨r, hr⟩
    rcases hport : env.scan_ports [dom] with e1 | prs
    · simp [ScanOrchestrator.run_vulnerability_scan, hport] at hr
    · rcases hvuln : env.scan_vulnerabilities prs with e2 | vulns
      · simp [ScanOrchestrator.run_vulnerability_scan, hport, hvuln] at hr
      · simp [ScanOrchestrator.run_vulnerability_scan, hport, hvuln]
  · intro e he
    rcases hport : env.scan_ports [dom] with e1 | prs
    · refine ⟨by simp [ScanOrchestrator.run_vulnerability_scan, hport,
          ScanOrchestrator.fail_write],
        by simp [ScanOrchestrator.run_vulnerability_scan, hport, ScanOrchestrator.fail_write,
          List.chain'_cons],
        ScanOrchestrator.fail_write scan_id ("Vulnerability scan failed: " ++ e1),
        by simp [ScanOrchestrator.run_vulnerability_scan, hport], rfl, rfl,
        by simp [ScanOrchestrator.fail_write]⟩
    · rcases hvuln : env.scan_vulnerabilities prs with e2 | vulns
      · refine ⟨by simp [ScanOrchestrator.run_vulnerability_scan, hport, hvuln,
            ScanOrchestrator.fail_write],
          by simp [ScanOrchestrator.run_vulnerability_scan, hport, hvuln,
            ScanOrchestrator.fail_write, List.chain'_cons],
          ScanOrchestrator.fail_write scan_id ("Vulnerability scan failed: " ++ e2),
          by simp [ScanOrchestrator.run_vulnerability_scan, hport, hvuln], rfl, rfl,
          by simp [ScanOrchestrator.fail_write]⟩
      · simp [ScanOrchestrator.run_vulnerability_scan, hport, hvuln] at he

theorem progress_trace_amended_witness :
    (ScanOrchestrator.run_full_scan envScenario 1 "example.com").1.map
      (fun w => w.progress) = [0, 10, 30, 40, 70, 80, 95, 100] :=
  ((progress_trace_amended envScenario 1 "example.com").1 ⟨_, rfl⟩).1

/-- C3 (counterexample): the orchestrator re-raises the original exception
unchanged (bare `raise`): a full scan whose port phase raises "boom"
propagates exactly the error "boom" to the caller, and the propagated
error is identical for job ids 1 and 99 — so it cannot carry the job id
(or any phase context). -/
theorem reraise_ignores_job_id :
    ((ScanOrchestrator.run_full_scan envPortFail 1 "example.com").2
        = Except.error "boom") ∧
    ((ScanOrchestrator.run_full_scan envPortFail 99 "example.com").2
        = Except.error "boom") ∧
    ((ScanOrchestrator.run_full_scan envPortFail 1 "example.com").2
        = (ScanOrchestrator.run_full_scan envPortFail 99 "example.com").2) :=
  ⟨rfl, rfl, rfl⟩

/-- C3 (amended): for every scan run (any of the four scan types), any
exception escaping a phase is caught at the orchestrator boundary; the
final status write has status "failed", progress 0, phase "error" and the
error message embedded in the message field ("Scan failed: " /
"Subdomain scan failed: " / "Port scan failed: " /
"Vulnerability scan failed: " prefix per run method); the original
exception is re-raised unchanged — not wrapped in a typed failure carrying
job_id and phase — and no Scan Result payload is returned on failure (the
outcome is the error, never a result dict). -/
theorem failure_boundary_amended (env : ScanEnv) (scan_id : Nat) (dom : String) :
    (∀ e, (ScanOrchestrator.run_full_scan env scan_id dom).2 = Except.error e →
      (ScanOrchestrator.run_full_scan env scan_id dom).1.getLast?
        = some (ScanOrchestrator.fail_write scan_id ("Scan failed: " ++ e))) ∧
    (∀ e, (ScanOrchestrator.run_subdomain_scan env scan_id dom).2 = Except.error e →
      (ScanOrchestrator.run_subdomain_scan env scan_id dom).1.getLast?
        = some (ScanOrchestrator.fail_write scan_id ("Subdomain scan failed: " ++ e))) ∧
    (∀ e, (ScanOrchestrator.run_port_scan env scan_id dom).2 = Except.error e →
      (ScanOrchestrator.run_port_scan env scan_id dom).1.getLast?
        = some (ScanOrchestrator.fail_write scan_id ("Port scan failed: " ++ e))) ∧
    (∀ e, (ScanOrchestrator.run_vulnerability_scan env scan_id dom).2 = Except.error e →
      (ScanOrchestrator.run_vulnerability_scan env scan_id dom).1.getLast?
        = some (ScanOrchestrator.fail_write scan_id ("Vulnerability scan failed: " ++ e))) := by
  refine ⟨?_, ?_, ?_, ?_⟩
  · intro e he
    rcases henum : env.enumerate_subdomains dom with e0 | subs
    · simp [ScanOrchestrator.run_full_scan, henum] at he ⊢
      simp [he]
    · rcases hport : env.scan_ports ((dom :: subs).dedup) with e1 | prs
      · simp [ScanOrchestrator.run_full_scan, henum, hport] at he ⊢
        simp [he]
      · rcases hvuln : env.scan_vulnerabilities prs with e2 | vulns
        · simp [ScanOrchestrator.run_full_scan, henum, hport, hvuln] at he ⊢
          simp [he]
        · simp [ScanOrchestrator.run_full_scan, henum, hport, hvuln] at he
  · intro e he
    rcases henum : env.enumerate_subdomains dom with e0 | subs
    · simp [ScanOrchestrator.run_subdomain_scan, henum] at he ⊢
      simp [he]
    · simp [ScanOrchestrator.run_subdomain_scan, henum] at he
  · intro e he
    rcases hport : env.scan_ports [dom] with e1 | prs
    · simp [ScanOrchestrator.run_port_scan, hport] at he ⊢
      simp [he]
    · simp [ScanOrchestrator.run_port_scan, hport] at he
  · intro e he
    rcases hport : env.scan_ports [dom] with e1 | prs
    · simp [ScanOrchestrator.run_vulnerability_scan, hport] at he ⊢
      simp [he]
    · rcases hvuln : env.scan_vulnerabilities prs with e2 | vulns
      · simp [ScanOrchestrator.run_vulnerability_scan, hport, hvuln] at he ⊢
        simp [he]
      · simp [ScanOrchestrator.run_vulnerability_scan, hport, hvuln] at he

theorem failure_boundary_amended_witness :
    (ScanOrchestrator.run_full_scan envPortFail 1 "example.com").1.getLast?
      = some (ScanOrchestrator.fail_write 1 ("Scan failed: " ++ "boom")) :=
  (failure_boundary_amended envPortFail 1 "example.com").1 "boom" rfl

/-- C4 (counterexample): on a host where exactly ports 80, 22 and 9999
accept connections, the port prober's fixed well-known list yields
findings for ports 22 and 80 only — 9999 is not in `common_ports`, so no
finding (in particular no "unknown" finding) is produced for it. -/
theorem no_finding_for_port_9999 :
    ((PortScanner.scan_target_ports openC4 "host.example.com"
        PortScanner.common_ports).open_ports.map
        (fun f => (f.port, f.service, f.state))
      = [(22, "ssh", "open"), (80, "http", "open")]) ∧
    (PortScanner.common_ports.contains 9999 = false) ∧
    ((PortScanner.scan_ports openC4 ["host.example.com"]).map
        (fun pr => pr.2.open_ports.map (fun f => f.port)) = [[22, 80]]) :=
  ⟨rfl, rfl, rfl⟩

/-- C4 (amended): on a host where exactly ports 80, 22 and 9999 accept
connections, probing the fixed well-known list yields the findings
22:"ssh" and 80:"http" (each state "open") and nothing for 9999; the
service lookup itself maps 9999 — absent from the table — to "unknown"
rather than failing, as the explicit port list [80, 22, 9999] shows. -/
theorem port_classification_amended (target : String)
    (connect_ok : String → Nat → Bool)
    (h : ∀ p, connect_ok target p = (p == 80 || p == 22 || p == 9999)) :
    ((PortScanner.scan_target_ports connect_ok target
        PortScanner.common_ports).open_ports.map
        (fun f => (f.port, f.service, f.state))
      = [(22, "ssh", "open"), (80, "http", "open")]) ∧
    ((PortScanner.scan_target_ports connect_ok target [80, 22, 9999]).open_ports.map
        (fun f => (f.port, f.service, f.state))
      = [(80, "http", "open"), (22, "ssh", "open"), (9999, "unknown", "open")]) ∧
    PortScanner.identify_service 9999 = "unknown" := by
  refine ⟨?_, ?_, rfl⟩ <;>
    (simp [PortScanner.scan_target_ports, PortScanner.common_ports, h]
     decide)

theorem port_classification_amended_witness :
    PortScanner.identify_service 9999 = "unknown" :=
  (port_classification_amended "host.example.com" openC4 (fun _ => rfl)).2.2

/-- C6: for every successfully fetched response, the header auditor emits
findings all of severity "Medium" and type "Missing Security Header", with
exactly one finding carrying the fixed description of each checked header
that is absent (and none for a present header); a response with only
Content-Security-Policy present yields exactly 4 findings. -/
theorem header_audit_exact_findings :
    (∀ (fetch : String → Nat → Option (String → Bool)) (headers : String → Bool)
        (target : String) (port : Nat), fetch target port = some headers →
      (∀ v ∈ VulnerabilityScanner.scan_web_vulnerabilities fetch target port,
        v.severity = "Medium" ∧ v.vulnerability_type = "Missing Security Header") ∧
      (∀ hd ∈ VulnerabilityScanner.security_headers,
        (VulnerabilityScanner.scan_web_vulnerabilities fetch target port).countP
          (fun v => v.description == hd.2) = if headers hd.1 then 0 else 1)) ∧
    (VulnerabilityScanner.scan_web_vulnerabilities cspFetch "example.com" 80).length = 4 := by
  refine ⟨?_, rfl⟩
  intro fetch headers target port hf
  cases h1 : headers "X-Frame-Options" <;>
    cases h2 : headers "X-Content-Type-Options" <;>
    cases h3 : headers "X-XSS-Protection" <;>
    cases h4 : headers "Strict-Transport-Security" <;>
    cases h5 : headers "Content-Security-Policy" <;>
    refine ⟨?_, ?_⟩ <;>
    simp [VulnerabilityScanner.scan_web_vulnerabilities, hf,
      VulnerabilityScanner.security_headers, h1, h2, h3, h4, h5, List.countP_cons]

theorem header_audit_exact_findings_witness :
    (VulnerabilityScanner.scan_web_vulnerabilities cspFetch "example.com" 80).countP
      (fun v => v.description == "Clickjacking protection missing") = 1 := by
  have h := ((header_audit_exact_findings.1 cspFetch
      (fun s => s == "Content-Security-Policy") "example.com" 80 rfl).2
    ("X-Frame-Options", "Clickjacking protection missing")
    (by simp [VulnerabilityScanner.security_headers]))
  simpa using h

theorem mem_enumerate_collect (method_results : List (Except String (List String)))
    (acc : List String) (s : String) :
    s ∈ method_results.foldl SubdomainEnumerator.collect_step acc ↔
      s ∈ acc ∨ ∃ results, Except.ok results ∈ method_results ∧ s ∈ results := by
  induction method_results generalizing acc with
  | nil => simp
  | cons r rest ih =>
    cases r with
    | ok results =>
      simp only [List.foldl_cons, SubdomainEnumerator.collect_step, ih,
        List.mem_append, List.mem_cons]
      constructor
      · rintro ((h | h) | ⟨rs, hrs, hsrs⟩)
        · exact Or.inl h
        · exact Or.inr ⟨results, Or.inl rfl, h⟩
        · exact Or.inr ⟨rs, Or.inr hrs, hsrs⟩
      · rintro (h | ⟨rs, hrs | hrs, hsrs⟩)
        · exact Or.inl (Or.inl h)
        · cases hrs
          exact Or.inl (Or.inr hsrs)
        · exact Or.inr ⟨rs, hrs, hsrs⟩
    | error e =>
      simp only [List.foldl_cons, SubdomainEnumerator.collect_step, ih, List.mem_cons]
      constructor
      · rintro (h | ⟨rs, hrs, hsrs⟩)
        · exact Or.inl h
        · exact Or.inr ⟨rs, Or.inr hrs, hsrs⟩
      · rintro (h | ⟨rs, hrs | hrs, hsrs⟩)
        · exact Or.inl h
        · cases hrs
        · exact Or.inr ⟨rs, hrs, hsrs⟩

/-- C7: the subdomain discoverer returns the deduplicated union of the
successful methods' results — the returned list has no duplicates, and a
name is in it iff some successful method produced it; for overlapping
methods returning [www.x.com, api.x.com] and [www.x.com] the merged list
has exactly 2 elements. -/
theorem enumerate_subdomains_dedup :
    (∀ (method_results : List (Except String (List String))),
      (SubdomainEnumerator.enumerate_subdomains method_results).Nodup ∧
      (∀ s : String, s ∈ SubdomainEnumerator.enumerate_subdomains method_results ↔
        ∃ results, Except.ok results ∈ method_results ∧ s ∈ results)) ∧
    (SubdomainEnumerator.enumerate_subdomains
        [Except.ok ["www.x.com", "api.x.com"], Except.ok ["www.x.com"]]).length = 2 := by
  refine ⟨fun mrs => ⟨List.nodup_dedup _, fun s => ?_⟩, rfl⟩
  rw [SubdomainEnumerator.enumerate_subdomains, List.mem_dedup, mem_enumerate_collect]
  simp

theorem enumerate_subdomains_dedup_witness :
    "www.x.com" ∈ SubdomainEnumerator.enumerate_subdomains
      [Except.ok ["www.x.com", "api.x.com"], Except.ok ["www.x.com"]] :=
  ((enumerate_subdomains_dedup.1 _).2 "www.x.com").mpr
    ⟨["www.x.com", "api.x.com"], by simp, by simp⟩

/-- C8: a scan_type outside full, subdomain, port, vuln is rejected by the
schema validator, and the background dispatcher's `else` branch raises
"Unknown scan type" before any run method is selected — so no scan phase
executes for such an input. -/
theorem unknown_scan_type_fails (s : String) (h : s ∉ allowed_scan_types) :
    ScanCreate.validate_scan_type s = Except.error
      "Scan type must be one of: [\x27full\x27, \x27subdomain\x27, \x27port\x27, \x27vuln\x27]" ∧
    select_scan s = Except.error ("Unknown scan type: " ++ s) := by
  have hs : ¬ (s = "full" ∨ s = "subdomain" ∨ s = "port" ∨ s = "vuln") := by
    simpa [allowed_scan_types] using h
  push_neg at hs
  refine ⟨?_, ?_⟩
  · simp [ScanCreate.validate_scan_type, h]
  · simp [select_scan, hs.1, hs.2.1, hs.2.2.1, hs.2.2.2]

theorem unknown_scan_type_fails_witness :
    select_scan "xyz" = Except.error ("Unknown scan type: " ++ "xyz") :=
  (unknown_scan_type_fails "xyz" (by decide)).2
